import Mathlib

/-!
Shallow embedding of `src/ocean_db.py` (class `OceanDatabase`): an ARGO
ocean-data loader over SQLite.  The embedding covers the row
validator/normalizer `clean_data`, the region classifier
`get_ocean_region`, the chunked importer `import_csv_data` with its
per-file commit/rollback, the four insert functions, and the query /
statistics layer (`get_measurement_data`, `get_statistics`,
`get_float_statistics`).

Modelling choices, stated once here:
* A pandas DataFrame batch is a `List RawRow`.  Every expected column is
  present in the model; a cell that is missing or NaN/NaT is `none`.
  Consequently the code's `'measurement_date' in df.columns` test is true,
  and `row.get(col, default)` is `Option.getD`.
* Numeric cells are rationals, `measurement_date` is carried as an
  unparsed `String` and parsed by a caller-supplied
  `parse : String → Option Nat` standing for `pd.to_datetime` with
  `errors` set to coerce (`none` = NaT); timestamps are `Nat`.
* The SQLite database is a `Store` of four row lists.  A `Schema` records
  which tables exist with which columns, and whether `argo_floats`
  carries a uniqueness constraint on `float_id` (which is what makes
  `INSERT OR REPLACE` behave as an upsert).  An insert statement naming a
  missing table or column fails at statement-preparation time, i.e.
  independently of the number of parameter rows, as `sqlite3` does.
* Python exceptions are `Except`; the `try`/`except` of
  `import_csv_data` is the top-level `match` in its model, with the
  rollback returning the store as it was when the call began (the one
  `commit` is at end of file, so that is the last committed state).
-/

/-- A raw CSV row as read by `pd.read_csv`: the union of the columns the
code ever reads, each cell optional (`none` = missing column or NaN). -/
structure RawRow where
  float_id : Option String
  platform_number : Option String
  cycle_number : Option Int
  latitude : Option ℚ
  longitude : Option ℚ
  measurement_date : Option String
  ocean_region : Option String
  status : Option String
  depth_meters : Option ℚ
  temperature_celsius : Option ℚ
  salinity_psu : Option ℚ
  oxygen_mg_per_l : Option ℚ
  oxygen_saturation : Option ℚ
  quality_flag : Option Int
  pressure_dbar : Option ℚ
  conductivity : Option ℚ
  deriving DecidableEq, Repr

/-- A row that passed `clean_data`: identical to `RawRow` except that
`measurement_date` is now a parsed timestamp (the `pd.to_datetime`
conversion step drops every row whose date does not parse, so survivors
always carry one). -/
structure CleanRow where
  float_id : Option String
  platform_number : Option String
  cycle_number : Option Int
  latitude : Option ℚ
  longitude : Option ℚ
  measurement_date : Nat
  ocean_region : Option String
  status : Option String
  depth_meters : Option ℚ
  temperature_celsius : Option ℚ
  salinity_psu : Option ℚ
  oxygen_mg_per_l : Option ℚ
  oxygen_saturation : Option ℚ
  quality_flag : Option Int
  pressure_dbar : Option ℚ
  conductivity : Option ℚ
  deriving DecidableEq, Repr

/-- An all-`none` raw row, convenient base for concrete rows. -/
def blankRow : RawRow :=
  { float_id := none, platform_number := none, cycle_number := none,
    latitude := none, longitude := none, measurement_date := none,
    ocean_region := none, status := none, depth_meters := none,
    temperature_celsius := none, salinity_psu := none,
    oxygen_mg_per_l := none, oxygen_saturation := none,
    quality_flag := none, pressure_dbar := none, conductivity := none }

/-- Copy a raw row's cells into a clean row with parsed date `t`. -/
def toCleanRow (r : RawRow) (t : Nat) : CleanRow :=
  { float_id := r.float_id, platform_number := r.platform_number,
    cycle_number := r.cycle_number, latitude := r.latitude,
    longitude := r.longitude, measurement_date := t,
    ocean_region := r.ocean_region, status := r.status,
    depth_meters := r.depth_meters,
    temperature_celsius := r.temperature_celsius,
    salinity_psu := r.salinity_psu,
    oxygen_mg_per_l := r.oxygen_mg_per_l,
    oxygen_saturation := r.oxygen_saturation,
    quality_flag := r.quality_flag, pressure_dbar := r.pressure_dbar,
    conductivity := r.conductivity }

/-- `df['latitude'] >= -90` and `<= 90` in pandas: a NaN cell compares
false, so a null latitude fails the range test. -/
def latInRange (x : Option ℚ) : Bool :=
  match x with
  | some a => decide (-90 ≤ a) && decide (a ≤ 90)
  | none => false

/-- `df['longitude'] >= -180` and `<= 180`; NaN compares false. -/
def lonInRange (x : Option ℚ) : Bool :=
  match x with
  | some a => decide (-180 ≤ a) && decide (a ≤ 180)
  | none => false

/-- The per-kind `dropna`/range-check prefix of `clean_data` (the value
of the local `df` just before the date-conversion step). -/
def cleanKept (rows : List RawRow) (data_type : String) : List RawRow :=
  if data_type = "floats" then
    ((rows.filter
        (fun r => r.float_id.isSome && r.latitude.isSome && r.longitude.isSome)).filter
      (fun r => latInRange r.latitude)).filter
      (fun r => lonInRange r.longitude)
  else if data_type = "temperature" ∨ data_type = "salinity" ∨ data_type = "oxygen" then
    rows.filter (fun r => r.float_id.isSome && r.measurement_date.isSome)
  else
    rows

/-- `OceanDatabase.clean_data`: per-kind null filtering (`dropna`), the
coordinate range checks for kind `floats`, then the
`pd.to_datetime`/`dropna` step which parses `measurement_date` and drops
every row whose date is null or unparsable. -/
def clean_data (parse : String → Option Nat) (rows : List RawRow)
    (data_type : String) : List CleanRow :=
  (cleanKept rows data_type).filterMap
    (fun r => (r.measurement_date.bind parse).map (toCleanRow r))

/-- `OceanDatabase.get_ocean_region`: the fixed rectangular tests,
evaluated in order with first match winning.  (The `region_mapping`
dictionary parameter of the Python function is never read, so it is
omitted here.) -/
def get_ocean_region (lat lon : ℚ) : String :=
  if -30 ≤ lat ∧ lat ≤ 60 ∧ -180 ≤ lon ∧ lon ≤ -30 then "Atlantic Ocean"
  else if -30 ≤ lat ∧ lat ≤ 60 ∧ 30 ≤ lon ∧ lon ≤ 180 then "Pacific Ocean"
  else if -30 ≤ lat ∧ lat ≤ 30 ∧ 20 ≤ lon ∧ lon ≤ 120 then "Indian Ocean"
  else if 60 ≤ lat then "Arctic Ocean"
  else if lat ≤ -30 then "Southern Ocean"
  else "Unknown"

/-- `get_ocean_region` as applied through `row.apply` to possibly-null
cells: with a NaN coordinate every Python comparison is false, so the
chain falls through to the final else. -/
def get_ocean_region_opt (lat lon : Option ℚ) : String :=
  match lat, lon with
  | some a, some b => get_ocean_region a b
  | _, _ => "Unknown"

/-- A persisted `argo_floats` row (the autoincrement surrogate key is
omitted; it never reaches any query result the claims touch). -/
structure FloatRec where
  float_id : Option String
  platform_number : Option String
  cycle_number : Option Int
  latitude : Option ℚ
  longitude : Option ℚ
  measurement_date : Option Nat
  ocean_region : Option String
  status : Option String
  deriving DecidableEq, Repr

/-- A persisted measurement row.  The three measurement tables share this
shape; the kind-specific columns map to `value1`/`value2` as follows —
temperature: `value1` = temperature_celsius, `value2` = pressure_dbar;
salinity: `value1` = salinity_psu, `value2` = conductivity;
oxygen: `value1` = oxygen_mg_per_l, `value2` = oxygen_saturation. -/
structure MeasRec where
  float_id : Option String
  measurement_date : Option Nat
  depth_meters : Option ℚ
  value1 : Option ℚ
  value2 : Option ℚ
  quality_flag : Option Int
  deriving DecidableEq, Repr

/-- The database state: the four tables the code writes and reads. -/
structure Store where
  argo_floats : List FloatRec
  temperature_data : List MeasRec
  salinity_data : List MeasRec
  oxygen_data : List MeasRec
  deriving DecidableEq, Repr

def Store.empty : Store := ⟨[], [], [], []⟩

/-- Which tables exist with which columns, plus whether `argo_floats`
has a uniqueness constraint on `float_id` (the thing that turns
`INSERT OR REPLACE` into an upsert-by-id). -/
structure Schema where
  tables : List (String × List String)
  floatIdUnique : Bool
  deriving Repr

/-- The named table exists and has every listed column.  An insert whose
statement names a missing table or column fails when the statement is
prepared. -/
def Schema.hasCols (sc : Schema) (table : String) (cols : List String) : Bool :=
  match sc.tables.lookup table with
  | some present => cols.all (fun c => present.contains c)
  | none => false

/-- The fallback schema built by `create_basic_schema` when
`database/schema.sql` is missing: only `argo_floats` (without
`platform_number`/`cycle_number`) and `temperature_data` (without
`quality_flag`/`pressure_dbar`), and no uniqueness constraint on
`float_id`. -/
def basicSchema : Schema :=
  { tables :=
      [("argo_floats",
          ["id", "float_id", "latitude", "longitude", "measurement_date",
           "ocean_region", "status"]),
       ("temperature_data",
          ["id", "float_id", "measurement_date", "depth_meters",
           "temperature_celsius"])],
    floatIdUnique := false }

/-- Modelled from the spec: `database/schema.sql` is external to the
source tree, so the normal-operation schema is taken from the spec's
storage-layout section — four tables `argo_floats`, `temperature_data`,
`salinity_data`, `oxygen_data` carrying every column the insert
statements write, with `argo_floats` "keyed logically by `float_id` for
upsert purposes". -/
def fullSchema : Schema :=
  { tables :=
      [("argo_floats",
          ["id", "float_id", "platform_number", "cycle_number", "latitude",
           "longitude", "measurement_date", "ocean_region", "status"]),
       ("temperature_data",
          ["id", "float_id", "measurement_date", "depth_meters",
           "temperature_celsius", "quality_flag", "pressure_dbar"]),
       ("salinity_data",
          ["id", "float_id", "measurement_date", "depth_meters",
           "salinity_psu", "quality_flag", "conductivity"]),
       ("oxygen_data",
          ["id", "float_id", "measurement_date", "depth_meters",
           "oxygen_mg_per_l", "oxygen_saturation", "quality_flag"])],
    floatIdUnique := true }

/-- The columns named by the `INSERT OR REPLACE INTO argo_floats`
statement of `insert_float_data`. -/
def floatInsertCols : List String :=
  ["float_id", "platform_number", "cycle_number", "latitude", "longitude",
   "measurement_date", "ocean_region", "status"]

/-- Columns of the `INSERT INTO temperature_data` statement. -/
def tempInsertCols : List String :=
  ["float_id", "measurement_date", "depth_meters", "temperature_celsius",
   "quality_flag", "pressure_dbar"]

/-- Columns of the `INSERT INTO salinity_data` statement. -/
def salInsertCols : List String :=
  ["float_id", "measurement_date", "depth_meters", "salinity_psu",
   "quality_flag", "conductivity"]

/-- Columns of the `INSERT INTO oxygen_data` statement. -/
def oxyInsertCols : List String :=
  ["float_id", "measurement_date", "depth_meters", "oxygen_mg_per_l",
   "oxygen_saturation", "quality_flag"]

/-- The parameter tuple `insert_float_data` builds from one row
(`row.get` with defaults for `ocean_region` and `status`). -/
def floatRecOfRow (r : CleanRow) : FloatRec :=
  { float_id := r.float_id, platform_number := r.platform_number,
    cycle_number := r.cycle_number, latitude := r.latitude,
    longitude := r.longitude, measurement_date := some r.measurement_date,
    ocean_region := some (r.ocean_region.getD "Unknown"),
    status := some (r.status.getD "active") }

/-- The parameter tuple of `insert_temperature_data` (defaults:
`depth_meters` 0, `quality_flag` 1). -/
def tempRecOfRow (r : CleanRow) : MeasRec :=
  { float_id := r.float_id, measurement_date := some r.measurement_date,
    depth_meters := some (r.depth_meters.getD 0),
    value1 := r.temperature_celsius, value2 := r.pressure_dbar,
    quality_flag := some (r.quality_flag.getD 1) }

/-- The parameter tuple of `insert_salinity_data`. -/
def salRecOfRow (r : CleanRow) : MeasRec :=
  { float_id := r.float_id, measurement_date := some r.measurement_date,
    depth_meters := some (r.depth_meters.getD 0),
    value1 := r.salinity_psu, value2 := r.conductivity,
    quality_flag := some (r.quality_flag.getD 1) }

/-- The parameter tuple of `insert_oxygen_data`. -/
def oxyRecOfRow (r : CleanRow) : MeasRec :=
  { float_id := r.float_id, measurement_date := some r.measurement_date,
    depth_meters := some (r.depth_meters.getD 0),
    value1 := r.oxygen_mg_per_l, value2 := r.oxygen_saturation,
    quality_flag := some (r.quality_flag.getD 1) }

/-- One `INSERT OR REPLACE` step on `argo_floats` when `float_id` is
unique: rows conflicting with the new row on `float_id` are deleted and
the new row inserted.  A null `float_id` conflicts with nothing (SQL
NULLs never compare equal), so it is a plain append. -/
def upsertFloat (t : List FloatRec) (r : FloatRec) : List FloatRec :=
  match r.float_id with
  | none => t ++ [r]
  | some k => (t.filter (fun x => x.float_id ≠ some k)) ++ [r]

/-- `executemany` over a float batch under a unique `float_id`. -/
def upsertBatch (t : List FloatRec) (rs : List FloatRec) : List FloatRec :=
  rs.foldl upsertFloat t

/-- `OceanDatabase.insert_float_data`: fails at prepare time if the
schema lacks a named column; otherwise `INSERT OR REPLACE` row by row —
an upsert when `float_id` is unique, a plain append when it is not
(no constraint means no conflict to replace). -/
def insert_float_data (sc : Schema) (rows : List CleanRow)
    (t : List FloatRec) : Except String (List FloatRec) :=
  if sc.hasCols "argo_floats" floatInsertCols then
    .ok (if sc.floatIdUnique then upsertBatch t (rows.map floatRecOfRow)
         else t ++ rows.map floatRecOfRow)
  else
    .error "no such column in argo_floats"

/-- `OceanDatabase.insert_temperature_data`: plain append-only insert. -/
def insert_temperature_data (sc : Schema) (rows : List CleanRow)
    (t : List MeasRec) : Except String (List MeasRec) :=
  if sc.hasCols "temperature_data" tempInsertCols then
    .ok (t ++ rows.map tempRecOfRow)
  else
    .error "no such column in temperature_data"

/-- `OceanDatabase.insert_salinity_data`: plain append-only insert. -/
def insert_salinity_data (sc : Schema) (rows : List CleanRow)
    (t : List MeasRec) : Except String (List MeasRec) :=
  if sc.hasCols "salinity_data" salInsertCols then
    .ok (t ++ rows.map salRecOfRow)
  else
    .error "no such column in salinity_data"

/-- `OceanDatabase.insert_oxygen_data`: plain append-only insert. -/
def insert_oxygen_data (sc : Schema) (rows : List CleanRow)
    (t : List MeasRec) : Except String (List MeasRec) :=
  if sc.hasCols "oxygen_data" oxyInsertCols then
    .ok (t ++ rows.map oxyRecOfRow)
  else
    .error "no such column in oxygen_data"

/-- The `chunk['ocean_region'] = chunk.apply(...)` step: runs only when a
region mapping was supplied and the kind is `floats`.  (`region_mapping`
is modelled as the boolean "a mapping was supplied" since the
classifier never reads the dictionary itself.) -/
def applyRegionMapping (region_mapping : Bool) (data_type : String)
    (rows : List CleanRow) : List CleanRow :=
  if region_mapping = true ∧ data_type = "floats" then
    rows.map (fun r =>
      { r with ocean_region := some (get_ocean_region_opt r.latitude r.longitude) })
  else rows

/-- The `if`/`elif` insert dispatch of `import_csv_data`: a kind outside
the four known ones matches no branch and the chunk is dropped on the
floor without an error. -/
def insertChunk (sc : Schema) (data_type : String) (rows : List CleanRow)
    (s : Store) : Except String Store :=
  if data_type = "floats" then
    (insert_float_data sc rows s.argo_floats).map
      (fun t => { s with argo_floats := t })
  else if data_type = "temperature" then
    (insert_temperature_data sc rows s.temperature_data).map
      (fun t => { s with temperature_data := t })
  else if data_type = "salinity" then
    (insert_salinity_data sc rows s.salinity_data).map
      (fun t => { s with salinity_data := t })
  else if data_type = "oxygen" then
    (insert_oxygen_data sc rows s.oxygen_data).map
      (fun t => { s with oxygen_data := t })
  else
    .ok s

/-- The body of the `try` block of `import_csv_data`: the per-chunk loop
(clean, optionally classify, insert) accumulating `total_rows`; the
first exception aborts the whole loop. -/
def processChunks (sc : Schema) (parse : String → Option Nat)
    (region_mapping : Bool) (data_type : String) :
    List (List RawRow) → Store → Nat → Except String (Store × Nat)
  | [], s, n => .ok (s, n)
  | c :: cs, s, n =>
    let chunk := applyRegionMapping region_mapping data_type
      (clean_data parse c data_type)
    match insertChunk sc data_type chunk s with
    | .error e => .error e
    | .ok s' =>
      processChunks sc parse region_mapping data_type cs s' (n + chunk.length)

/-- `OceanDatabase.import_csv_data`.  `file` is `none` when the path does
not exist on disk (the `os.path.exists` guard returns `False` before any
read is attempted), otherwise the chunk sequence `pd.read_csv` yields.
On success the single end-of-file `commit` publishes the processed
store; on any exception the `rollback` restores the store as of the
start of the call and `False` is returned. -/
def import_csv_data (sc : Schema) (parse : String → Option Nat)
    (file : Option (List (List RawRow))) (data_type : String)
    (region_mapping : Bool) (s : Store) : Bool × Store :=
  match file with
  | none => (false, s)
  | some chunks =>
    match processChunks sc parse region_mapping data_type chunks s 0 with
    | .ok (s', _) => (true, s')
    | .error _ => (false, s)

/-- A raised Python exception of the query layer. -/
inductive PyError where
  | valueError (msg : String)
  | attributeError (msg : String)
  deriving DecidableEq, Repr

/-- `td.float_id = af.float_id` in the join: SQL equality, null matches
nothing. -/
def joinKeyEq (a b : Option String) : Bool :=
  match a, b with
  | some x, some y => x == y
  | _, _ => false

/-- `measurement_date >= bound`; a null date compares false in SQL. -/
def dateGE (d : Option Nat) (bound : Nat) : Bool :=
  match d with
  | some t => bound ≤ t
  | none => false

/-- `measurement_date <= bound`; a null date compares false in SQL. -/
def dateLE (d : Option Nat) (bound : Nat) : Bool :=
  match d with
  | some t => t ≤ bound
  | none => false

/-- Insertion step for `ORDER BY measurement_date DESC` (null dates sink
to the end as the smallest key). -/
def insertByDateDesc (r : MeasRec × Option String) :
    List (MeasRec × Option String) → List (MeasRec × Option String)
  | [] => [r]
  | x :: xs =>
    if x.1.measurement_date.getD 0 < r.1.measurement_date.getD 0 then
      r :: x :: xs
    else
      x :: insertByDateDesc r xs

/-- `ORDER BY measurement_date DESC` over the selected rows. -/
def sortByDateDesc :
    List (MeasRec × Option String) → List (MeasRec × Option String)
  | [] => []
  | x :: xs => insertByDateDesc x (sortByDateDesc xs)

/-- `OceanDatabase.get_measurement_data`: the `table_map` lookup raises
`ValueError` on an unknown kind; otherwise the built SELECT — an inner
join against `argo_floats` filtered on `ocean_region` when a region is
requested (the second component carries the joined `af.ocean_region`,
`none` when no join happened), then the optional `float_id` and
inclusive date-range filters, ordered by date descending and capped at
`lim`. -/
def get_measurement_data (s : Store) (data_type : String)
    (fid : Option String) (start_date end_date : Option Nat)
    (region : Option String) (lim : Nat) :
    Except PyError (List (MeasRec × Option String)) :=
  let table_map :=
    [("temperature", s.temperature_data), ("salinity", s.salinity_data),
     ("oxygen", s.oxygen_data)]
  match table_map.lookup data_type with
  | none => .error (.valueError ("Invalid data type: " ++ data_type))
  | some table =>
    let base : List (MeasRec × Option String) :=
      match region with
      | some reg =>
        table.flatMap (fun td =>
          ((s.argo_floats.filter (fun af =>
              joinKeyEq td.float_id af.float_id
                && (af.ocean_region == some reg))).map
            (fun af => (td, af.ocean_region))))
      | none => table.map (fun td => (td, none))
    let base := match fid with
      | some f => base.filter (fun x => x.1.float_id == some f)
      | none => base
    let base := match start_date with
      | some sd => base.filter (fun x => dateGE x.1.measurement_date sd)
      | none => base
    let base := match end_date with
      | some ed => base.filter (fun x => dateLE x.1.measurement_date ed)
      | none => base
    .ok ((sortByDateDesc base).take lim)

/-- One entry of the all-regions statistics answer. -/
structure RegionStat where
  region : Option String
  total_floats : Nat
  active_floats : Nat
  inactive_floats : Nat
  deriving DecidableEq, Repr

/-- The two shapes `get_float_statistics` returns: an unwrapped
single-region summary, or the collection keyed by region. -/
inductive FloatStats where
  | single (total_floats active_floats inactive_floats : Nat)
  | byRegion (regions : List RegionStat)
  deriving DecidableEq, Repr

/-- `COUNT(CASE WHEN status = 'active' THEN 1 END)`. -/
def countActive (rows : List FloatRec) : Nat :=
  rows.countP (fun r => r.status == some "active")

/-- `COUNT(CASE WHEN status = 'inactive' THEN 1 END)`. -/
def countInactive (rows : List FloatRec) : Nat :=
  rows.countP (fun r => r.status == some "inactive")

/-- The rows of one `GROUP BY ocean_region` group (SQL groups the NULL
regions together; a `WHERE ocean_region = ?` filter never matches a
NULL, which the `some reg` key reflects). -/
def regionGroup (s : Store) (key : Option String) : List FloatRec :=
  s.argo_floats.filter (fun r => r.ocean_region == key)

/-- `OceanDatabase.get_float_statistics`.  With a region: the grouped
query returns one row when matches exist and no rows otherwise, and the
Python `results[0][i] if results else 0` zero-fills the empty case.
Without a region: one entry per distinct stored `ocean_region` value. -/
def get_float_statistics (s : Store) (region : Option String) : FloatStats :=
  match region with
  | some reg =>
    let rows := regionGroup s (some reg)
    if rows.isEmpty then .single 0 0 0
    else .single rows.length (countActive rows) (countInactive rows)
  | none =>
    let keys := (s.argo_floats.map (fun r => r.ocean_region)).dedup
    .byRegion (keys.map (fun k =>
      { region := k, total_floats := (regionGroup s k).length,
        active_floats := countActive (regionGroup s k),
        inactive_floats := countInactive (regionGroup s k) }))

/-- `OceanDatabase.get_statistics`: dispatches to `get_float_statistics`
for kind `floats`; every other kind reaches
`self.get_measurement_statistics(...)`, an attribute that is defined
nowhere in the class, so Python raises `AttributeError` at the lookup. -/
def get_statistics (s : Store) (data_type : String)
    (region : Option String) : Except PyError FloatStats :=
  if data_type = "floats" then .ok (get_float_statistics s region)
  else .error (.attributeError
    "OceanDatabase object has no attribute get_measurement_statistics")

/-! ## Helper lemmas -/

theorem mem_of_mem_cleanKept {rows : List RawRow} {dt : String} {x : RawRow}
    (h : x ∈ cleanKept rows dt) : x ∈ rows := by
  unfold cleanKept at h
  split_ifs at h with h1 h2
  · exact List.mem_of_mem_filter (List.mem_of_mem_filter (List.mem_of_mem_filter h))
  · exact List.mem_of_mem_filter h
  · exact h

theorem mem_clean_data {parse : String → Option Nat} {rows : List RawRow}
    {dt : String} {r : CleanRow} (h : r ∈ clean_data parse rows dt) :
    ∃ x ∈ cleanKept rows dt, ∃ t,
      x.measurement_date.bind parse = some t ∧ r = toCleanRow x t := by
  unfold clean_data at h
  rw [List.mem_filterMap] at h
  obtain ⟨x, hx, hfx⟩ := h
  rw [Option.map_eq_some'] at hfx
  obtain ⟨t, hparse, hrt⟩ := hfx
  exact ⟨x, hx, t, hparse, hrt.symm⟩

theorem mem_cleanKept_floats {rows : List RawRow} {x : RawRow}
    (h : x ∈ cleanKept rows "floats") :
    x ∈ rows ∧ x.float_id.isSome = true ∧
      latInRange x.latitude = true ∧ lonInRange x.longitude = true := by
  unfold cleanKept at h
  rw [if_pos rfl] at h
  rw [List.mem_filter] at h
  obtain ⟨h, hlon⟩ := h
  rw [List.mem_filter] at h
  obtain ⟨h, hlat⟩ := h
  rw [List.mem_filter] at h
  obtain ⟨hmem, hids⟩ := h
  simp only [Bool.and_eq_true] at hids
  exact ⟨hmem, hids.1.1, hlat, hlon⟩

theorem mem_cleanKept_meas {rows : List RawRow} {dt : String} {x : RawRow}
    (hdt : dt = "temperature" ∨ dt = "salinity" ∨ dt = "oxygen")
    (h : x ∈ cleanKept rows dt) :
    x ∈ rows ∧ x.float_id.isSome = true ∧ x.measurement_date.isSome = true := by
  have hne : ¬ dt = "floats" := by
    rcases hdt with h' | h' | h' <;> subst h' <;> decide
  unfold cleanKept at h
  rw [if_neg hne, if_pos hdt, List.mem_filter] at h
  obtain ⟨hmem, hids⟩ := h
  simp only [Bool.and_eq_true] at hids
  exact ⟨hmem, hids.1, hids.2⟩

theorem cleanKept_unknown {rows : List RawRow} {dt : String}
    (h1 : dt ≠ "floats") (h2 : dt ≠ "temperature") (h3 : dt ≠ "salinity")
    (h4 : dt ≠ "oxygen") : cleanKept rows dt = rows := by
  unfold cleanKept
  rw [if_neg h1, if_neg (by simp [h2, h3, h4])]

theorem latInRange_elim {x : Option ℚ} (h : latInRange x = true) :
    ∃ a, x = some a ∧ -90 ≤ a ∧ a ≤ 90 := by
  cases x with
  | none => simp [latInRange] at h
  | some a =>
    simp only [latInRange, Bool.and_eq_true, decide_eq_true_eq] at h
    exact ⟨a, rfl, h.1, h.2⟩

theorem lonInRange_elim {x : Option ℚ} (h : lonInRange x = true) :
    ∃ a, x = some a ∧ -180 ≤ a ∧ a ≤ 180 := by
  cases x with
  | none => simp [lonInRange] at h
  | some a =>
    simp only [lonInRange, Bool.and_eq_true, decide_eq_true_eq] at h
    exact ⟨a, rfl, h.1, h.2⟩

/-! ## C1: validator postcondition -/

/-- C1: every row in the output of `clean_data` arises from an input row
whose `measurement_date` parsed, carries the parsed timestamp as its
normalized date, and satisfies the kind's rules — for `floats`, non-null
`float_id` and coordinates within [-90,90] × [-180,180]; for the three
measurement kinds, non-null `float_id` (the non-null date is the parsed
timestamp itself).  Rows with unparsable dates are thereby dropped and
never reach the insert step. -/
theorem C1_clean_data_postcondition (parse : String → Option Nat)
    (rows : List RawRow) (dt : String) (r : CleanRow)
    (hr : r ∈ clean_data parse rows dt) :
    (∃ x ∈ rows, x.measurement_date.bind parse = some r.measurement_date ∧
        r = toCleanRow x r.measurement_date) ∧
    (dt = "floats" →
      r.float_id.isSome = true ∧
      (∃ a, r.latitude = some a ∧ -90 ≤ a ∧ a ≤ 90) ∧
      (∃ b, r.longitude = some b ∧ -180 ≤ b ∧ b ≤ 180)) ∧
    ((dt = "temperature" ∨ dt = "salinity" ∨ dt = "oxygen") →
      r.float_id.isSome = true) := by
  obtain ⟨x, hx, t, hparse, hrx⟩ := mem_clean_data hr
  subst hrx
  refine ⟨⟨x, mem_of_mem_cleanKept hx, hparse, rfl⟩, ?_, ?_⟩
  · intro hdt
    subst hdt
    obtain ⟨_, hid, hlat, hlon⟩ := mem_cleanKept_floats hx
    obtain ⟨a, ha, ha1, ha2⟩ := latInRange_elim hlat
    obtain ⟨b, hb, hb1, hb2⟩ := lonInRange_elim hlon
    exact ⟨hid, ⟨a, ha, ha1, ha2⟩, ⟨b, hb, hb1, hb2⟩⟩
  · intro hdt
    obtain ⟨_, hid, _⟩ := mem_cleanKept_meas hdt hx
    exact hid

/-- A concrete parse function for witnesses: recognizes two date
strings. -/
def parse0 : String → Option Nat :=
  fun s => if s = "d1" then some 100 else if s = "d2" then some 200 else none

/-- A concrete valid floats row. -/
def rowF : RawRow :=
  { blankRow with
    float_id := some "F1",
    latitude := some 10,
    longitude := some 20,
    measurement_date := some "d1" }

theorem C1_clean_data_postcondition_witness :
    toCleanRow rowF 100 ∈ clean_data parse0 [rowF] "floats" ∧
    ((∃ x ∈ [rowF],
        x.measurement_date.bind parse0 =
          some ((toCleanRow rowF 100).measurement_date) ∧
        toCleanRow rowF 100 = toCleanRow x ((toCleanRow rowF 100).measurement_date)) ∧
    ("floats" = "floats" →
      (toCleanRow rowF 100).float_id.isSome = true ∧
      (∃ a, (toCleanRow rowF 100).latitude = some a ∧ -90 ≤ a ∧ a ≤ 90) ∧
      (∃ b, (toCleanRow rowF 100).longitude = some b ∧ -180 ≤ b ∧ b ≤ 180)) ∧
    (("floats" = "temperature" ∨ "floats" = "salinity" ∨ "floats" = "oxygen") →
      (toCleanRow rowF 100).float_id.isSome = true)) :=
  ⟨by decide,
   C1_clean_data_postcondition parse0 [rowF] "floats" (toCleanRow rowF 100)
     (by decide)⟩

/-! ## C2: region classification -/

/-- The Atlantic branch's test, as written in the code. -/
def atlTest (lat lon : ℚ) : Prop :=
  -30 ≤ lat ∧ lat ≤ 60 ∧ -180 ≤ lon ∧ lon ≤ -30

/-- The Pacific branch's test. -/
def pacTest (lat lon : ℚ) : Prop :=
  -30 ≤ lat ∧ lat ≤ 60 ∧ 30 ≤ lon ∧ lon ≤ 180

/-- The Indian branch's test. -/
def indTest (lat lon : ℚ) : Prop :=
  -30 ≤ lat ∧ lat ≤ 30 ∧ 20 ≤ lon ∧ lon ≤ 120

instance (lat lon : ℚ) : Decidable (atlTest lat lon) := by
  unfold atlTest; infer_instance

instance (lat lon : ℚ) : Decidable (pacTest lat lon) := by
  unfold pacTest; infer_instance

instance (lat lon : ℚ) : Decidable (indTest lat lon) := by
  unfold indTest; infer_instance

/-- C2: `get_ocean_region` is total with range
{Atlantic, Pacific, Indian, Arctic, Southern, Unknown}, evaluates its
rectangular tests in the fixed order Atlantic, Pacific, Indian, Arctic,
Southern with first match winning, sends (45,-60) to Atlantic, (10,170)
to Pacific, (70,0) to Arctic, (-50,0) to Southern, and sends (0,-170) to
Unknown unless an earlier branch's overlapping bounds catch it first —
here the Atlantic branch does catch it. -/
theorem C2_region_classification :
    (∀ lat lon : ℚ,
        get_ocean_region lat lon ∈
          ["Atlantic Ocean", "Pacific Ocean", "Indian Ocean",
           "Arctic Ocean", "Southern Ocean", "Unknown"]) ∧
    (∀ lat lon : ℚ, atlTest lat lon →
        get_ocean_region lat lon = "Atlantic Ocean") ∧
    (∀ lat lon : ℚ, ¬ atlTest lat lon → pacTest lat lon →
        get_ocean_region lat lon = "Pacific Ocean") ∧
    (∀ lat lon : ℚ, ¬ atlTest lat lon → ¬ pacTest lat lon →
        indTest lat lon → get_ocean_region lat lon = "Indian Ocean") ∧
    (∀ lat lon : ℚ, ¬ atlTest lat lon → ¬ pacTest lat lon →
        ¬ indTest lat lon → 60 ≤ lat →
        get_ocean_region lat lon = "Arctic Ocean") ∧
    (∀ lat lon : ℚ, ¬ atlTest lat lon → ¬ pacTest lat lon →
        ¬ indTest lat lon → ¬ (60 ≤ lat) → lat ≤ -30 →
        get_ocean_region lat lon = "Southern Ocean") ∧
    (∀ lat lon : ℚ, ¬ atlTest lat lon → ¬ pacTest lat lon →
        ¬ indTest lat lon → ¬ (60 ≤ lat) → ¬ (lat ≤ -30) →
        get_ocean_region lat lon = "Unknown") ∧
    get_ocean_region 45 (-60) = "Atlantic Ocean" ∧
    get_ocean_region 10 170 = "Pacific Ocean" ∧
    get_ocean_region 70 0 = "Arctic Ocean" ∧
    get_ocean_region (-50) 0 = "Southern Ocean" ∧
    (get_ocean_region 0 (-170) = "Unknown" ∨
      (atlTest 0 (-170) ∧ get_ocean_region 0 (-170) = "Atlantic Ocean")) := by
  refine ⟨?_, ?_, ?_, ?_, ?_, ?_, ?_, by decide, by decide, by decide,
    by decide, Or.inr ⟨by decide, by decide⟩⟩
  · intro lat lon
    unfold get_ocean_region
    split_ifs <;> simp
  · intro lat lon h
    unfold get_ocean_region atlTest at *
    rw [if_pos h]
  · intro lat lon h1 h2
    unfold get_ocean_region atlTest pacTest at *
    rw [if_neg h1, if_pos h2]
  · intro lat lon h1 h2 h3
    unfold get_ocean_region atlTest pacTest indTest at *
    rw [if_neg h1, if_neg h2, if_pos h3]
  · intro lat lon h1 h2 h3 h4
    unfold get_ocean_region atlTest pacTest indTest at *
    rw [if_neg h1, if_neg h2, if_neg h3, if_pos h4]
  · intro lat lon h1 h2 h3 h4 h5
    unfold get_ocean_region atlTest pacTest indTest at *
    rw [if_neg h1, if_neg h2, if_neg h3, if_neg h4, if_pos h5]
  · intro lat lon h1 h2 h3 h4 h5
    unfold get_ocean_region atlTest pacTest indTest at *
    rw [if_neg h1, if_neg h2, if_neg h3, if_neg h4, if_neg h5]

theorem C2_region_classification_witness :
    atlTest 45 (-60) ∧ get_ocean_region 45 (-60) = "Atlantic Ocean" :=
  ⟨by decide, C2_region_classification.2.1 45 (-60) (by decide)⟩

/-! ## C5: missing file -/

/-- C5: when the path does not exist on disk (`file = none`, the
`os.path.exists` guard), `import_csv_data` returns `False` without
raising and the store is unchanged — no read and no write is attempted
(the function returns before the `try` block). -/
theorem C5_missing_file_returns_false (sc : Schema)
    (parse : String → Option Nat) (dt : String) (rm : Bool) (s : Store) :
    import_csv_data sc parse none dt rm s = (false, s) := rfl

/-! ## C4: per-file atomicity -/

/-- C4: for an existing file, if processing raises (`processChunks`
errors) then `import_csv_data` returns `False` with the store rolled
back to its state at the start of the call; if processing succeeds it
commits the processed store exactly once and returns `True`. -/
theorem C4_import_atomicity (sc : Schema) (parse : String → Option Nat)
    (rm : Bool) (chunks : List (List RawRow)) (dt : String) (s : Store) :
    (∀ e, processChunks sc parse rm dt chunks s 0 = .error e →
        import_csv_data sc parse (some chunks) dt rm s = (false, s)) ∧
    (∀ s' n, processChunks sc parse rm dt chunks s 0 = .ok (s', n) →
        import_csv_data sc parse (some chunks) dt rm s = (true, s')) := by
  constructor
  · intro e he
    show (match processChunks sc parse rm dt chunks s 0 with
          | .ok (s', _) => (true, s')
          | .error _ => (false, s)) = (false, s)
    rw [he]
  · intro s' n h
    show (match processChunks sc parse rm dt chunks s 0 with
          | .ok (s', _) => (true, s')
          | .error _ => (false, s)) = (true, s')
    rw [h]

/-- The store holding exactly the one float row imported from `rowF`. -/
def storeF : Store :=
  { Store.empty with argo_floats := [floatRecOfRow (toCleanRow rowF 100)] }

theorem C4_import_atomicity_witness :
    import_csv_data basicSchema parse0 (some [[rowF]]) "floats" false
        Store.empty = (false, Store.empty) ∧
    import_csv_data fullSchema parse0 (some [[rowF]]) "floats" false
        Store.empty = (true, storeF) :=
  ⟨(C4_import_atomicity basicSchema parse0 false [[rowF]] "floats"
      Store.empty).1 "no such column in argo_floats" rfl,
   (C4_import_atomicity fullSchema parse0 false [[rowF]] "floats"
      Store.empty).2 storeF 1 rfl⟩

/-! ## C6: unknown kind at query time -/

theorem lookup_cons {α β : Type} [BEq α] (a k : α) (v : β)
    (es : List (α × β)) :
    List.lookup a ((k, v) :: es) = cond (a == k) (some v) (List.lookup a es) := by
  cases h : a == k <;> simp [List.lookup, h]

/-- C6: `get_measurement_data` raises `ValueError` for every kind
outside {temperature, salinity, oxygen} — it never returns a (possibly
empty) result — and for each of the three known kinds it returns a
result rather than raising on account of the kind. -/
theorem C6_unknown_query_kind_raises (s : Store) (dt : String)
    (fid : Option String) (sd ed : Option Nat) (reg : Option String)
    (lim : Nat) :
    (dt ≠ "temperature" → dt ≠ "salinity" → dt ≠ "oxygen" →
      get_measurement_data s dt fid sd ed reg lim =
        .error (.valueError ("Invalid data type: " ++ dt))) ∧
    ((dt = "temperature" ∨ dt = "salinity" ∨ dt = "oxygen") →
      ∃ l, get_measurement_data s dt fid sd ed reg lim = .ok l) := by
  constructor
  · intro h1 h2 h3
    unfold get_measurement_data
    simp only []
    rw [lookup_cons, beq_eq_false_iff_ne.mpr h1, cond_false,
      lookup_cons, beq_eq_false_iff_ne.mpr h2, cond_false,
      lookup_cons, beq_eq_false_iff_ne.mpr h3, cond_false]
    rfl
  · rintro (rfl | rfl | rfl) <;> exact ⟨_, rfl⟩

theorem C6_unknown_query_kind_raises_witness :
    get_measurement_data Store.empty "floats" none none none none 10 =
      .error (.valueError ("Invalid data type: " ++ "floats")) ∧
    (∃ l, get_measurement_data Store.empty "temperature" none none none
        none 10 = .ok l) :=
  ⟨(C6_unknown_query_kind_raises Store.empty "floats" none none none
      none 10).1 (by decide) (by decide) (by decide),
   (C6_unknown_query_kind_raises Store.empty "temperature" none none none
      none 10).2 (Or.inl rfl)⟩

/-! ## C8: measurement statistics unreachable -/

/-- C8: for every kind other than `floats`, `get_statistics` dispatches
to `self.get_measurement_statistics`, a method defined nowhere in the
class, so Python raises `AttributeError` for every region argument and
every store state — measurement statistics are unreachable through
`get_statistics`. -/
theorem C8_measurement_statistics_unreachable (dt : String)
    (h : dt ≠ "floats") (reg : Option String) (s : Store) :
    get_statistics s dt reg = .error (.attributeError
      "OceanDatabase object has no attribute get_measurement_statistics") := by
  unfold get_statistics
  rw [if_neg h]

theorem C8_measurement_statistics_unreachable_witness :
    get_statistics Store.empty "temperature" none = .error (.attributeError
      "OceanDatabase object has no attribute get_measurement_statistics") :=
  C8_measurement_statistics_unreachable "temperature" (by decide) none
    Store.empty

/-! ## C7: float statistics shape and zero-fill -/

/-- C7: with a single region requested, `get_float_statistics` returns
the unwrapped `.single` summary carrying the region's total/active/
inactive counts — all three zero when no stored row matches — while with
no region it returns the `.byRegion` collection with exactly one entry
per distinct stored `ocean_region` value, each carrying that region's
counts. -/
theorem C7_float_statistics_shape (s : Store) (reg : String) :
    (get_float_statistics s (some reg) =
      .single (regionGroup s (some reg)).length
        (countActive (regionGroup s (some reg)))
        (countInactive (regionGroup s (some reg)))) ∧
    (regionGroup s (some reg) = [] →
      get_float_statistics s (some reg) = .single 0 0 0) ∧
    (∃ entries, get_float_statistics s none = .byRegion entries ∧
      (∀ k, (∃ e ∈ entries, e.region = k) ↔
          k ∈ s.argo_floats.map (fun r => r.ocean_region)) ∧
      (entries.map (fun e => e.region)).Nodup ∧
      (∀ e ∈ entries,
        e.total_floats = (regionGroup s e.region).length ∧
        e.active_floats = countActive (regionGroup s e.region) ∧
        e.inactive_floats = countInactive (regionGroup s e.region))) := by
  refine ⟨?_, ?_, ?_⟩
  · show (if (regionGroup s (some reg)).isEmpty = true then
        FloatStats.single 0 0 0
      else
        FloatStats.single (regionGroup s (some reg)).length
          (countActive (regionGroup s (some reg)))
          (countInactive (regionGroup s (some reg)))) =
      FloatStats.single (regionGroup s (some reg)).length
        (countActive (regionGroup s (some reg)))
        (countInactive (regionGroup s (some reg)))
    by_cases h : (regionGroup s (some reg)).isEmpty
    · rw [if_pos h]
      have h' : regionGroup s (some reg) = [] := by
        rwa [List.isEmpty_iff] at h
      rw [h']
      rfl
    · rw [if_neg h]
  · intro h
    show (if (regionGroup s (some reg)).isEmpty = true then
        FloatStats.single 0 0 0
      else
        FloatStats.single (regionGroup s (some reg)).length
          (countActive (regionGroup s (some reg)))
          (countInactive (regionGroup s (some reg)))) =
      FloatStats.single 0 0 0
    rw [if_pos (List.isEmpty_iff.mpr h)]
  · refine ⟨_, rfl, ?_, ?_, ?_⟩
    · intro k
      constructor
      · rintro ⟨e, he, hek⟩
        rw [List.mem_map] at he
        obtain ⟨k', hk', rfl⟩ := he
        have : k' = k := hek
        subst this
        exact List.mem_dedup.mp hk'
      · intro hk
        exact ⟨_, List.mem_map_of_mem _ (List.mem_dedup.mpr hk), rfl⟩
    · have hmap :
          (((s.argo_floats.map (fun r => r.ocean_region)).dedup.map
             (fun k =>
               ({ region := k, total_floats := (regionGroup s k).length,
                  active_floats := countActive (regionGroup s k),
                  inactive_floats := countInactive (regionGroup s k) } :
                 RegionStat))).map (fun e => e.region)) =
            (s.argo_floats.map (fun r => r.ocean_region)).dedup := by
        rw [List.map_map]
        exact List.map_id _
      rw [hmap]
      exact List.nodup_dedup _
    · intro e he
      rw [List.mem_map] at he
      obtain ⟨k, hk, rfl⟩ := he
      exact ⟨rfl, rfl, rfl⟩

theorem C7_float_statistics_shape_witness :
    get_float_statistics Store.empty (some "Pacific Ocean") =
      .single 0 0 0 :=
  (C7_float_statistics_shape Store.empty "Pacific Ocean").2.1 rfl

/-! ## C9: unknown kind at import time -/

theorem processChunks_unknown (sc : Schema) (parse : String → Option Nat)
    (rm : Bool) {dt : String} (h1 : dt ≠ "floats") (h2 : dt ≠ "temperature")
    (h3 : dt ≠ "salinity") (h4 : dt ≠ "oxygen") :
    ∀ (chunks : List (List RawRow)) (s : Store) (n : Nat),
      processChunks sc parse rm dt chunks s n =
        .ok (s, n + (chunks.map (fun c => (clean_data parse c dt).length)).sum) := by
  intro chunks
  induction chunks with
  | nil => intro s n; simp [processChunks]
  | cons c cs ih =>
    intro s n
    have hrm : applyRegionMapping rm dt (clean_data parse c dt) =
        clean_data parse c dt := by
      unfold applyRegionMapping
      rw [if_neg (fun h => h1 h.2)]
    have hins : insertChunk sc dt (clean_data parse c dt) s = .ok s := by
      unfold insertChunk
      rw [if_neg h1, if_neg h2, if_neg h3, if_neg h4]
    show (match insertChunk sc dt
            (applyRegionMapping rm dt (clean_data parse c dt)) s with
          | .error e => Except.error e
          | .ok s' => processChunks sc parse rm dt cs s'
              (n + (applyRegionMapping rm dt (clean_data parse c dt)).length)) =
        .ok (s, n + ((c :: cs).map (fun c => (clean_data parse c dt).length)).sum)
    rw [hrm, hins]
    show processChunks sc parse rm dt cs s
        (n + (clean_data parse c dt).length) =
      .ok (s, n + ((c :: cs).map (fun c => (clean_data parse c dt).length)).sum)
    rw [ih s (n + (clean_data parse c dt).length)]
    simp [Nat.add_assoc]

/-- C9: for a kind outside {floats, temperature, salinity, oxygen} and an
existing file, `import_csv_data` reports success (`True`) and accumulates
the cleaned row count, yet no insert branch matches, so the store — all
four tables — is left unchanged. -/
theorem C9_unknown_import_kind_silent_success (sc : Schema)
    (parse : String → Option Nat) (rm : Bool) (s : Store)
    (chunks : List (List RawRow)) (dt : String) (h1 : dt ≠ "floats")
    (h2 : dt ≠ "temperature") (h3 : dt ≠ "salinity") (h4 : dt ≠ "oxygen") :
    processChunks sc parse rm dt chunks s 0 =
      .ok (s, (chunks.map (fun c => (clean_data parse c dt).length)).sum) ∧
    import_csv_data sc parse (some chunks) dt rm s = (true, s) := by
  have hp := processChunks_unknown sc parse rm h1 h2 h3 h4 chunks s 0
  rw [Nat.zero_add] at hp
  refine ⟨hp, ?_⟩
  show (match processChunks sc parse rm dt chunks s 0 with
        | .ok (s', _) => (true, s')
        | .error _ => (false, s)) = (true, s)
  rw [hp]

theorem C9_unknown_import_kind_silent_success_witness :
    processChunks fullSchema parse0 false "humidity" [[rowF]] Store.empty 0 =
      .ok (Store.empty,
        ([[rowF]].map (fun c => (clean_data parse0 c "humidity").length)).sum) ∧
    import_csv_data fullSchema parse0 (some [[rowF]]) "humidity" false
      Store.empty = (true, Store.empty) :=
  C9_unknown_import_kind_silent_success fullSchema parse0 false Store.empty
    [[rowF]] "humidity" (by decide) (by decide) (by decide) (by decide)

/-! ## C10: fallback schema makes every insert fail -/

theorem insertChunk_basicSchema_error {dt : String}
    (hdt : dt = "floats" ∨ dt = "temperature" ∨ dt = "salinity" ∨
      dt = "oxygen") (rows : List CleanRow) (s : Store) :
    ∃ e, insertChunk basicSchema dt rows s = .error e := by
  rcases hdt with rfl | rfl | rfl | rfl
  · exact ⟨"no such column in argo_floats", rfl⟩
  · exact ⟨"no such column in temperature_data", rfl⟩
  · exact ⟨"no such column in salinity_data", rfl⟩
  · exact ⟨"no such column in oxygen_data", rfl⟩

/-- C10: under the fallback schema (`create_basic_schema`), for each of
the four data kinds an import whose file yields a non-empty cleaned batch
returns `False` with the store unchanged: the fallback's `argo_floats`
lacks `platform_number`/`cycle_number`, its `temperature_data` lacks
`quality_flag`/`pressure_dbar`, and the salinity/oxygen tables do not
exist, so every insert statement raises and lands on the rollback
path. -/
theorem C10_fallback_schema_import_fails (parse : String → Option Nat)
    (rm : Bool) (s : Store) (chunks : List (List RawRow)) (dt : String)
    (hdt : dt = "floats" ∨ dt = "temperature" ∨ dt = "salinity" ∨
      dt = "oxygen")
    (hne : ∃ c ∈ chunks, clean_data parse c dt ≠ []) :
    import_csv_data basicSchema parse (some chunks) dt rm s = (false, s) := by
  cases chunks with
  | nil =>
    obtain ⟨c, hc, _⟩ := hne
    exact absurd hc (List.not_mem_nil c)
  | cons c cs =>
    obtain ⟨e, he⟩ := insertChunk_basicSchema_error hdt
      (applyRegionMapping rm dt (clean_data parse c dt)) s
    show (match processChunks basicSchema parse rm dt (c :: cs) s 0 with
          | .ok (s', _) => (true, s')
          | .error _ => (false, s)) = (false, s)
    have hpc : processChunks basicSchema parse rm dt (c :: cs) s 0 =
        .error e := by
      show (match insertChunk basicSchema dt
              (applyRegionMapping rm dt (clean_data parse c dt)) s with
            | .error e => Except.error e
            | .ok s' => processChunks basicSchema parse rm dt cs s'
                (0 + (applyRegionMapping rm dt (clean_data parse c dt)).length)) =
          .error e
      rw [he]
    rw [hpc]

theorem C10_fallback_schema_import_fails_witness :
    import_csv_data basicSchema parse0 (some [[rowF]]) "floats" false
      Store.empty = (false, Store.empty) :=
  C10_fallback_schema_import_fails parse0 false Store.empty [[rowF]]
    "floats" (Or.inl rfl) ⟨[rowF], by decide, by decide⟩

/-! ## C3: re-import idempotence asymmetry

Key-counting lemmas about the `INSERT OR REPLACE` upsert, then normal
forms for a whole-file import of each kind under the full schema. -/

/-- Occurrences of key `k` in the `argo_floats` table. -/
def keyCount (t : List FloatRec) (k : String) : Nat :=
  t.countP (fun x => x.float_id == some k)

theorem upsertFloat_eq_of_key {r : FloatRec} {k : String}
    (h : r.float_id = some k) (t : List FloatRec) :
    upsertFloat t r = t.filter (fun x => x.float_id ≠ some k) ++ [r] := by
  unfold upsertFloat
  rw [h]

theorem upsertFloat_eq_of_none {r : FloatRec} (h : r.float_id = none)
    (t : List FloatRec) : upsertFloat t r = t ++ [r] := by
  unfold upsertFloat
  rw [h]

theorem keyCount_filter_self (t : List FloatRec) (k : String) :
    keyCount (t.filter (fun x => x.float_id ≠ some k)) k = 0 := by
  rw [keyCount, List.countP_eq_zero]
  intro x hx
  rw [List.mem_filter] at hx
  simp only [decide_eq_true_eq] at hx
  simp [hx.2]

theorem keyCount_singleton (r : FloatRec) (k : String) :
    keyCount [r] k = if r.float_id = some k then 1 else 0 := by
  rw [keyCount, List.countP_singleton]
  by_cases h : r.float_id = some k <;> simp [h]

theorem keyCount_upsertFloat_self {r : FloatRec} {k : String}
    (h : r.float_id = some k) (t : List FloatRec) :
    keyCount (upsertFloat t r) k = 1 := by
  rw [upsertFloat_eq_of_key h, keyCount, List.countP_append]
  have h1 := keyCount_filter_self t k
  have h2 := keyCount_singleton r k
  rw [keyCount] at h1 h2
  rw [h1, h2, if_pos h]

theorem keyCount_upsertFloat_other {r : FloatRec} {k : String}
    (h : r.float_id ≠ some k) (t : List FloatRec) :
    keyCount (upsertFloat t r) k = keyCount t k := by
  have hsing : keyCount [r] k = 0 := by
    rw [keyCount_singleton, if_neg h]
  cases hr : r.float_id with
  | none =>
    rw [upsertFloat_eq_of_none hr, keyCount, List.countP_append]
    rw [keyCount] at hsing
    rw [hsing, Nat.add_zero]
    rfl
  | some k' =>
    have hkk : k' ≠ k := by
      intro he
      exact h (by rw [hr, he])
    rw [upsertFloat_eq_of_key hr, keyCount, List.countP_append]
    rw [keyCount] at hsing
    rw [hsing, Nat.add_zero, List.countP_filter]
    apply List.countP_congr
    intro x hx
    constructor
    · intro hand
      exact (Bool.and_eq_true ..).mp hand |>.1
    · intro hbeq
      have hxk : x.float_id = some k := eq_of_beq hbeq
      rw [Bool.and_eq_true]
      refine ⟨hbeq, ?_⟩
      simp only [hxk, ne_eq, Option.some.injEq, decide_eq_true_eq]
      exact fun he => hkk he.symm

theorem keyCount_filter_add_length (t : List FloatRec) (k : String) :
    (t.filter (fun x => x.float_id ≠ some k)).length + keyCount t k
      = t.length := by
  induction t with
  | nil => rfl
  | cons x xs ih =>
    by_cases h : x.float_id = some k
    · have hp : (x.float_id == some k) = true := by simp [h]
      have h1 : keyCount (x :: xs) k = keyCount xs k + 1 :=
        List.countP_cons_of_pos _ _ hp
      have h2 : (x :: xs).filter (fun x => x.float_id ≠ some k) =
          xs.filter (fun x => x.float_id ≠ some k) :=
        List.filter_cons_of_neg (by simp [h])
      rw [h1, h2, List.length_cons]
      omega
    · have hp : ¬ ((x.float_id == some k) = true) := by simp [h]
      have h1 : keyCount (x :: xs) k = keyCount xs k :=
        List.countP_cons_of_neg _ _ hp
      have h2 : (x :: xs).filter (fun x => x.float_id ≠ some k) =
          x :: xs.filter (fun x => x.float_id ≠ some k) :=
        List.filter_cons_of_pos (by simp [h])
      rw [h1, h2, List.length_cons, List.length_cons]
      omega

theorem length_upsertFloat_of_count {r : FloatRec} {k : String}
    (h : r.float_id = some k) (t : List FloatRec)
    (hc : keyCount t k = 1) : (upsertFloat t r).length = t.length := by
  rw [upsertFloat_eq_of_key h, List.length_append, List.length_singleton]
  have := keyCount_filter_add_length t k
  omega

theorem keyCount_upsertBatch_not_mem :
    ∀ (rs t : List FloatRec) (k : String),
      (∀ r ∈ rs, r.float_id ≠ some k) →
      keyCount (upsertBatch t rs) k = keyCount t k := by
  intro rs
  induction rs with
  | nil => intro t k _; rfl
  | cons r rs ih =>
    intro t k h
    show keyCount (upsertBatch (upsertFloat t r) rs) k = keyCount t k
    rw [ih (upsertFloat t r) k (fun r' hr' => h r' (List.mem_cons_of_mem _ hr')),
      keyCount_upsertFloat_other (h r (List.mem_cons_self ..)) t]

theorem keyCount_upsertBatch_mem :
    ∀ (rs t : List FloatRec) (k : String),
      some k ∈ rs.map (fun r => r.float_id) →
      keyCount (upsertBatch t rs) k = 1 := by
  intro rs
  induction rs with
  | nil => intro t k h; simp at h
  | cons r rs ih =>
    intro t k h
    show keyCount (upsertBatch (upsertFloat t r) rs) k = 1
    by_cases hm : some k ∈ rs.map (fun r => r.float_id)
    · exact ih _ k hm
    · have hr : r.float_id = some k := by
        rw [List.map_cons, List.mem_cons] at h
        rcases h with h | h
        · exact h.symm
        · exact absurd h hm
      have hall : ∀ r' ∈ rs, r'.float_id ≠ some k := by
        intro r' hr' he
        exact hm (by rw [List.mem_map]; exact ⟨r', hr', he⟩)
      rw [keyCount_upsertBatch_not_mem rs _ k hall,
        keyCount_upsertFloat_self hr t]

theorem length_upsertBatch_stable :
    ∀ (rs t : List FloatRec),
      (∀ r ∈ rs, ∃ k, r.float_id = some k ∧ keyCount t k = 1) →
      (upsertBatch t rs).length = t.length := by
  intro rs
  induction rs with
  | nil => intro t _; rfl
  | cons r rs ih =>
    intro t h
    obtain ⟨k, hk, hc⟩ := h r (List.mem_cons_self ..)
    have hrest : ∀ r' ∈ rs, ∃ k', r'.float_id = some k' ∧
        keyCount (upsertFloat t r) k' = 1 := by
      intro r' hr'
      obtain ⟨k', hk', hc'⟩ := h r' (List.mem_cons_of_mem _ hr')
      refine ⟨k', hk', ?_⟩
      by_cases hkk : k' = k
      · subst hkk
        exact keyCount_upsertFloat_self hk t
      · rw [keyCount_upsertFloat_other ?_ t]
        · exact hc'
        · rw [hk]
          intro he
          exact hkk (Option.some.inj he).symm
    show (upsertBatch (upsertFloat t r) rs).length = t.length
    rw [ih (upsertFloat t r) hrest, length_upsertFloat_of_count hk t hc]

theorem upsertBatch_twice_length (t B : List FloatRec)
    (hkeys : ∀ r ∈ B, r.float_id.isSome = true) :
    (upsertBatch (upsertBatch t B) B).length = (upsertBatch t B).length := by
  apply length_upsertBatch_stable
  intro r hr
  obtain ⟨k, hk⟩ := Option.isSome_iff_exists.mp (hkeys r hr)
  refine ⟨k, hk, ?_⟩
  apply keyCount_upsertBatch_mem
  rw [List.mem_map]
  exact ⟨r, hr, hk⟩

/-- The `FloatRec` batch one chunk of a floats import produces. -/
def floatChunkRecs (parse : String → Option Nat) (rm : Bool)
    (c : List RawRow) : List FloatRec :=
  (applyRegionMapping rm "floats" (clean_data parse c "floats")).map
    floatRecOfRow

/-- The `FloatRec` batch a whole floats file produces. -/
def floatFileRecs (parse : String → Option Nat) (rm : Bool)
    (chunks : List (List RawRow)) : List FloatRec :=
  (chunks.map (floatChunkRecs parse rm)).flatten

/-- The `MeasRec` batch a whole temperature file produces. -/
def tempFileRecs (parse : String → Option Nat)
    (chunks : List (List RawRow)) : List MeasRec :=
  (chunks.map (fun c => (clean_data parse c "temperature").map
    tempRecOfRow)).flatten

theorem upsertBatch_append (t a b : List FloatRec) :
    upsertBatch t (a ++ b) = upsertBatch (upsertBatch t a) b :=
  List.foldl_append ..

theorem floatFileRecs_cons (parse : String → Option Nat) (rm : Bool)
    (c : List RawRow) (cs : List (List RawRow)) :
    floatFileRecs parse rm (c :: cs) =
      floatChunkRecs parse rm c ++ floatFileRecs parse rm cs := by
  simp [floatFileRecs]

theorem tempFileRecs_cons (parse : String → Option Nat) (c : List RawRow)
    (cs : List (List RawRow)) :
    tempFileRecs parse (c :: cs) =
      (clean_data parse c "temperature").map tempRecOfRow ++
        tempFileRecs parse cs := by
  simp [tempFileRecs]

theorem insertChunk_floats_full (rows : List CleanRow) (s : Store) :
    insertChunk fullSchema "floats" rows s =
      .ok { s with
        argo_floats := upsertBatch s.argo_floats (rows.map floatRecOfRow) } :=
  rfl

theorem insertChunk_temp_full (rows : List CleanRow) (s : Store) :
    insertChunk fullSchema "temperature" rows s =
      .ok { s with
        temperature_data := s.temperature_data ++ rows.map tempRecOfRow } :=
  rfl

theorem processChunks_floats_full (parse : String → Option Nat)
    (rm : Bool) :
    ∀ (chunks : List (List RawRow)) (s : Store) (n : Nat), ∃ m,
      processChunks fullSchema parse rm "floats" chunks s n =
        .ok ({ s with
          argo_floats :=
            upsertBatch s.argo_floats (floatFileRecs parse rm chunks) }, m) := by
  intro chunks
  induction chunks with
  | nil =>
    intro s n
    exact ⟨n, rfl⟩
  | cons c cs ih =>
    intro s n
    obtain ⟨m, hm⟩ := ih
      { s with
        argo_floats :=
          upsertBatch s.argo_floats
            ((applyRegionMapping rm "floats"
              (clean_data parse c "floats")).map floatRecOfRow) }
      (n + (applyRegionMapping rm "floats"
        (clean_data parse c "floats")).length)
    refine ⟨m, ?_⟩
    show (match insertChunk fullSchema "floats"
            (applyRegionMapping rm "floats" (clean_data parse c "floats")) s with
          | .error e => Except.error e
          | .ok s' => processChunks fullSchema parse rm "floats" cs s'
              (n + (applyRegionMapping rm "floats"
                (clean_data parse c "floats")).length)) =
        .ok ({ s with
          argo_floats :=
            upsertBatch s.argo_floats (floatFileRecs parse rm (c :: cs)) }, m)
    rw [insertChunk_floats_full]
    show processChunks fullSchema parse rm "floats" cs
        { s with
          argo_floats :=
            upsertBatch s.argo_floats
              ((applyRegionMapping rm "floats"
                (clean_data parse c "floats")).map floatRecOfRow) }
        (n + (applyRegionMapping rm "floats"
          (clean_data parse c "floats")).length) =
      .ok ({ s with
        argo_floats :=
          upsertBatch s.argo_floats (floatFileRecs parse rm (c :: cs)) }, m)
    rw [hm, floatFileRecs_cons, upsertBatch_append]
    rfl

theorem processChunks_temp_full (parse : String → Option Nat) (rm : Bool) :
    ∀ (chunks : List (List RawRow)) (s : Store) (n : Nat), ∃ m,
      processChunks fullSchema parse rm "temperature" chunks s n =
        .ok ({ s with
          temperature_data :=
            s.temperature_data ++ tempFileRecs parse chunks }, m) := by
  intro chunks
  induction chunks with
  | nil =>
    intro s n
    refine ⟨n, ?_⟩
    show Except.ok (s, n) = _
    rw [show tempFileRecs parse [] = [] from rfl, List.append_nil]
  | cons c cs ih =>
    intro s n
    have hrm : applyRegionMapping rm "temperature"
        (clean_data parse c "temperature") =
        clean_data parse c "temperature" := by
      unfold applyRegionMapping
      rw [if_neg (fun hh => by exact absurd hh.2 (by decide))]
    obtain ⟨m, hm⟩ := ih
      { s with
        temperature_data :=
          s.temperature_data ++
            (clean_data parse c "temperature").map tempRecOfRow }
      (n + (clean_data parse c "temperature").length)
    refine ⟨m, ?_⟩
    show (match insertChunk fullSchema "temperature"
            (applyRegionMapping rm "temperature"
              (clean_data parse c "temperature")) s with
          | .error e => Except.error e
          | .ok s' => processChunks fullSchema parse rm "temperature" cs s'
              (n + (applyRegionMapping rm "temperature"
                (clean_data parse c "temperature")).length)) =
        .ok ({ s with
          temperature_data :=
            s.temperature_data ++ tempFileRecs parse (c :: cs) }, m)
    rw [hrm, insertChunk_temp_full]
    show processChunks fullSchema parse rm "temperature" cs
        { s with
          temperature_data :=
            s.temperature_data ++
              (clean_data parse c "temperature").map tempRecOfRow }
        (n + (clean_data parse c "temperature").length) =
      .ok ({ s with
        temperature_data :=
          s.temperature_data ++ tempFileRecs parse (c :: cs) }, m)
    rw [hm, tempFileRecs_cons, ← List.append_assoc]

theorem import_of_processChunks_ok {sc : Schema}
    {parse : String → Option Nat} {chunks : List (List RawRow)}
    {dt : String} {rm : Bool} {s s' : Store} {n : Nat}
    (h : processChunks sc parse rm dt chunks s 0 = .ok (s', n)) :
    import_csv_data sc parse (some chunks) dt rm s = (true, s') := by
  show (match processChunks sc parse rm dt chunks s 0 with
        | .ok (s', _) => (true, s')
        | .error _ => (false, s)) = (true, s')
  rw [h]

theorem clean_floats_id_isSome {parse : String → Option Nat}
    {rows : List RawRow} {r : CleanRow}
    (h : r ∈ clean_data parse rows "floats") : r.float_id.isSome = true := by
  obtain ⟨x, hx, t, hparse, rfl⟩ := mem_clean_data h
  obtain ⟨_, hid, _, _⟩ := mem_cleanKept_floats hx
  exact hid

theorem floatFileRecs_keys (parse : String → Option Nat) (rm : Bool)
    (chunks : List (List RawRow)) :
    ∀ r ∈ floatFileRecs parse rm chunks, r.float_id.isSome = true := by
  intro r hr
  rw [floatFileRecs, List.mem_flatten] at hr
  obtain ⟨l, hl, hrl⟩ := hr
  rw [List.mem_map] at hl
  obtain ⟨c, _, rfl⟩ := hl
  rw [floatChunkRecs, List.mem_map] at hrl
  obtain ⟨cr, hcr, rfl⟩ := hrl
  show cr.float_id.isSome = true
  unfold applyRegionMapping at hcr
  split_ifs at hcr with hc
  · rw [List.mem_map] at hcr
    obtain ⟨cr0, hcr0, rfl⟩ := hcr
    show cr0.float_id.isSome = true
    exact clean_floats_id_isSome hcr0
  · exact clean_floats_id_isSome hcr

/-- C3: under the normal schema, importing the same floats CSV twice via
`import_csv_data` leaves the `argo_floats` row count equal to importing
it once (upsert by `float_id`, last write wins), while importing the same
temperature CSV twice leaves `temperature_data` with exactly twice the
row count of a single import (append-only, no dedup).  The temperature
table is assumed empty at the start so that "twice the count of a single
import" is well defined. -/
theorem C3_reimport_idempotence_asymmetry (parse : String → Option Nat)
    (rm : Bool) (chunks : List (List RawRow)) (s : Store)
    (h : s.temperature_data = []) :
    ((import_csv_data fullSchema parse (some chunks) "floats" rm
        (import_csv_data fullSchema parse (some chunks) "floats" rm
          s).2).2.argo_floats.length =
      (import_csv_data fullSchema parse (some chunks) "floats" rm
        s).2.argo_floats.length) ∧
    ((import_csv_data fullSchema parse (some chunks) "temperature" rm
        (import_csv_data fullSchema parse (some chunks) "temperature" rm
          s).2).2.temperature_data.length =
      2 * (import_csv_data fullSchema parse (some chunks) "temperature" rm
        s).2.temperature_data.length) := by
  constructor
  · obtain ⟨m1, h1⟩ := processChunks_floats_full parse rm chunks s 0
    have e1 := import_of_processChunks_ok h1
    obtain ⟨m2, h2⟩ := processChunks_floats_full parse rm chunks
      { s with
        argo_floats :=
          upsertBatch s.argo_floats (floatFileRecs parse rm chunks) } 0
    have e2 := import_of_processChunks_ok h2
    rw [e1]
    show (import_csv_data fullSchema parse (some chunks) "floats" rm
        { s with
          argo_floats :=
            upsertBatch s.argo_floats
              (floatFileRecs parse rm chunks) }).2.argo_floats.length =
      (upsertBatch s.argo_floats (floatFileRecs parse rm chunks)).length
    rw [e2]
    show (upsertBatch
        (upsertBatch s.argo_floats (floatFileRecs parse rm chunks))
        (floatFileRecs parse rm chunks)).length =
      (upsertBatch s.argo_floats (floatFileRecs parse rm chunks)).length
    exact upsertBatch_twice_length s.argo_floats
      (floatFileRecs parse rm chunks) (floatFileRecs_keys parse rm chunks)
  · obtain ⟨m1, h1⟩ := processChunks_temp_full parse rm chunks s 0
    have e1 := import_of_processChunks_ok h1
    obtain ⟨m2, h2⟩ := processChunks_temp_full parse rm chunks
      { s with
        temperature_data :=
          s.temperature_data ++ tempFileRecs parse chunks } 0
    have e2 := import_of_processChunks_ok h2
    rw [e1]
    show (import_csv_data fullSchema parse (some chunks) "temperature" rm
        { s with
          temperature_data :=
            s.temperature_data ++
              tempFileRecs parse chunks }).2.temperature_data.length =
      2 * (s.temperature_data ++ tempFileRecs parse chunks).length
    rw [e2]
    show ((s.temperature_data ++ tempFileRecs parse chunks) ++
        tempFileRecs parse chunks).length =
      2 * (s.temperature_data ++ tempFileRecs parse chunks).length
    rw [h]
    simp [List.length_append]
    omega

theorem C3_reimport_idempotence_asymmetry_witness :
    ((import_csv_data fullSchema parse0 (some [[rowF]]) "floats" false
        (import_csv_data fullSchema parse0 (some [[rowF]]) "floats" false
          Store.empty).2).2.argo_floats.length =
      (import_csv_data fullSchema parse0 (some [[rowF]]) "floats" false
        Store.empty).2.argo_floats.length) ∧
    ((import_csv_data fullSchema parse0 (some [[rowF]]) "temperature" false
        (import_csv_data fullSchema parse0 (some [[rowF]]) "temperature" false
          Store.empty).2).2.temperature_data.length =
      2 * (import_csv_data fullSchema parse0 (some [[rowF]]) "temperature"
        false Store.empty).2.temperature_data.length) :=
  C3_reimport_idempotence_asymmetry parse0 false [[rowF]] Store.empty rfl
